import Mathlib

/-!
Shallow embedding of the configuration-resolution core of the VSCode-R-Debugger
extension (`src/extension.ts` together with the protocol-modification type
declarations). Debug configurations are open objects with optional fields;
we model every field of the `DebugConfiguration` interface as an `Option`.
JavaScript's two unset-detection idioms are modelled explicitly:
`??` (nullish coalescing) is `Option.getD`, while `||` on strings/numbers
also replaces the falsy values `""` and `0` (`strOr` / `natOr` below).
-/

namespace RDebugger

/-- Truthiness of an optional string, as JavaScript sees it: `undefined`
and the empty string are falsy, every other string is truthy. -/
def truthy : Option String → Bool
  | none => false
  | some s => s != ""

/-- JavaScript `o || d` for an optional string: `d` whenever `o` is unset
or the empty string. -/
def strOr (o : Option String) (d : String) : String :=
  match o with
  | none => d
  | some s => if s = "" then d else s

/-- JavaScript `o || d` for an optional number: `d` whenever `o` is unset
or `0`. -/
def natOr (o : Option Nat) (d : Nat) : Nat :=
  match o with
  | none => d
  | some n => if n = 0 then d else n

/-- The open debug-configuration object (interface `DebugConfiguration` in
`debugProtocolModifications.ts`, plus the `commandLineArgs` field of
`LaunchConfiguration` and the `port`/`host` fields of `AttachConfiguration`).
Every field is optional in the raw object handed to the resolver. -/
structure DebugConfig where
  type : Option String := none
  name : Option String := none
  request : Option String := none
  debugMode : Option String := none
  workingDirectory : Option String := none
  file : Option String := none
  mainFunction : Option String := none
  includePackageScopes : Option Bool := none
  setBreakpointsInPackages : Option Bool := none
  debuggedPackages : Option (List String) := none
  loadPackages : Option (List String) := none
  assignToAns : Option Bool := none
  allowGlobalDebugging : Option Bool := none
  overwritePrint : Option Bool := none
  overwriteCat : Option Bool := none
  overwriteMessage : Option Bool := none
  overwriteStr : Option Bool := none
  overwriteSource : Option Bool := none
  overwriteLoadAll : Option Bool := none
  overwriteHelp : Option Bool := none
  splitOverwrittenOutput : Option Bool := none
  supportsWriteToStdinEvent : Option Bool := none
  supportsShowingPromptRequest : Option Bool := none
  supportsStdoutReading : Option Bool := none
  supportsHelpViewer : Option Bool := none
  ignoreFlowControl : Option Bool := none
  useCustomSocket : Option Bool := none
  customPort : Option Nat := none
  customHost : Option String := none
  commandLineArgs : Option (List String) := none
  port : Option Nat := none
  host : Option String := none
  deriving Repr, DecidableEq

/-- The strict configurations (`StrictDebugConfiguration` in
`debugProtocolModifications.ts`): a tagged union with one tag per cast site
in `resolveDebugConfiguration` (`AttachConfiguration`,
`FunctionDebugConfiguration`, `FileDebugConfiguration`,
`WorkspaceDebugConfiguration`). -/
inductive StrictDebugConfiguration where
  | attach (c : DebugConfig)
  | functionLaunch (c : DebugConfig)
  | fileLaunch (c : DebugConfig)
  | workspaceLaunch (c : DebugConfig)
  deriving Repr, DecidableEq

/-- The underlying configuration object of a strict configuration. -/
def StrictDebugConfiguration.config : StrictDebugConfiguration → DebugConfig
  | .attach c => c
  | .functionLaunch c => c
  | .fileLaunch c => c
  | .workspaceLaunch c => c

/-- Ambient environment signals read by the resolver and the dynamic
provider: `docValid` models `activeTextEditor` being a filesystem-backed
(`file`-scheme) document, `hasFolder` the `folder` argument being present,
and `descriptionExists` the `fs.existsSync(path.join(folder, 'DESCRIPTION'))`
check (only consulted when a folder exists). -/
structure EnvironmentSignals where
  docValid : Bool
  hasFolder : Bool
  descriptionExists : Bool
  deriving Repr, DecidableEq

/-- State of a `DebugConfigurationResolver`: the fallback `customPort` /
`customHost` negotiated with the `TerminalHandler`, and whether an R help
panel is available. -/
structure DebugConfigurationResolver where
  customPort : Nat
  customHost : String := "localhost"
  supportsHelpViewer : Bool := false
  deriving Repr, DecidableEq

/-- `DebugConfigurationResolver.resolveDebugConfiguration` from
`extension.ts` (lines 234-324), with the in-place mutation of `config`
modelled as sequential rebinding. Returns `none` exactly where the source
returns `null`; the source function never throws. -/
def resolveDebugConfiguration (r : DebugConfigurationResolver)
    (env : EnvironmentSignals) (config0 : DebugConfig) :
    Option StrictDebugConfiguration :=
  let docValid := env.docValid
  let wd := if env.hasFolder then "${workspaceFolder}"
            else if docValid then "${fileDirname}" else "."
  let hasDescription := env.hasFolder && env.descriptionExists
  -- if the debugger was launched without config
  let config :=
    if !truthy config0.type && !truthy config0.request && !truthy config0.name then
      if hasDescription then
        { type := some "R-Debugger"
          name := some "Debug R-Package"
          request := some "launch"
          debugMode := some "workspace"
          workingDirectory := some wd
          loadPackages := some ["."]
          includePackageScopes := some true
          allowGlobalDebugging := some true : DebugConfig }
      else if docValid then
        -- if file is open, debug file
        { type := some "R-Debugger"
          name := some "Launch R Debugger"
          request := some "launch"
          debugMode := some "file"
          file := some "${file}"
          workingDirectory := some wd : DebugConfig }
      else
        -- if folder but no file is open, launch workspace
        { type := some "R-Debugger"
          name := some "Launch R Debugger"
          request := some "launch"
          debugMode := some "workspace"
          workingDirectory := some wd : DebugConfig }
    else config0
  let config := { config with
    debugMode := some (strOr config.debugMode (if docValid then "file" else "workspace")) }
  let config := { config with
    allowGlobalDebugging := some (config.allowGlobalDebugging.getD true) }
  -- fill custom capabilities/socket info
  let config :=
    if config.request = some "launch" then
      -- capabilities that are always true for this extension;
      -- overwriteHelp defaults to true, then is ANDed with help availability
      { config with
        supportsStdoutReading := some true
        supportsWriteToStdinEvent := some true
        supportsShowingPromptRequest := some true
        overwriteHelp := some ((config.overwriteHelp.getD true) && r.supportsHelpViewer) }
    else if config.request = some "attach" then
      -- communication info with TerminalHandler()
      { config with
        customPort := some (config.customPort.getD r.customPort)
        customHost := some (strOr config.customHost r.customHost)
        useCustomSocket := some (config.useCustomSocket.getD true)
        supportsWriteToStdinEvent := some (config.supportsWriteToStdinEvent.getD true)
        overwriteLoadAll := some false }
    else config
  -- make sure the config matches the requirements of one of the debug modes
  let debugMode := config.debugMode
  if config.request = some "attach" then
    some (.attach config)
  else if debugMode = some "function" then
    some (.functionLaunch { config with
      workingDirectory := some (strOr config.workingDirectory wd)
      file := some (strOr config.file "${file}")
      mainFunction := some (strOr config.mainFunction "main") })
  else if debugMode = some "file" then
    some (.fileLaunch { config with
      workingDirectory := some (strOr config.workingDirectory wd)
      file := some (strOr config.file "${file}") })
  else if debugMode = some "workspace" then
    some (.workspaceLaunch { config with
      workingDirectory := some (strOr config.workingDirectory wd) })
  else
    none

/-- A debug adapter descriptor: either an in-process adapter
(`DebugAdapterInlineImplementation` wrapping `new DebugAdapter(helpPanel,
commandLineArgs)`) or a socket connection (`DebugAdapterServer(port, host)`). -/
inductive DebugAdapterDescriptor where
  | inlineImplementation (helpPanelAvailable : Bool) (commandLineArgs : List String)
  | server (port : Nat) (host : String)
  deriving Repr, DecidableEq

/-- The error message thrown by `createDebugAdapterDescriptor` for an
unrecognized `request`. -/
def invalidRequestMessage : String :=
  "Invalid entry \"request\" in debug config. Valid entries are \"launch\" and \"attach\""

/-- `DebugAdapterDescriptorFactory.createDebugAdapterDescriptor` from
`extension.ts` (lines 88-103). The `throw` in the source is modelled as
`Except.error`. -/
def createDebugAdapterDescriptor (helpPanelAvailable : Bool)
    (config : DebugConfig) : Except String DebugAdapterDescriptor :=
  if config.request = some "launch" then
    let commandLineArgs :=
      match config.commandLineArgs with
      | some args => args
      | none => []
    .ok (.inlineImplementation helpPanelAvailable commandLineArgs)
  else if config.request = some "attach" then
    let port := natOr config.port 18721
    let host := strOr config.host "localhost"
    .ok (.server port host)
  else
    .error invalidRequestMessage

/-- `DynamicDebugConfigurationProvider.provideDebugConfigurations` from
`extension.ts` (lines 156-219): the dynamic template list, built
conditionally from the environment signals. -/
def dynamicDebugConfigurations (env : EnvironmentSignals) : List DebugConfig :=
  let docValid := env.docValid
  let wd := if env.hasFolder then "${workspaceFolder}"
            else if docValid then "${fileDirname}" else "."
  let hasDescription := env.hasFolder && env.descriptionExists
  let configs : List DebugConfig :=
    [{ type := some "R-Debugger"
       request := some "launch"
       name := some "Launch R-Workspace"
       debugMode := some "workspace"
       workingDirectory := some wd
       allowGlobalDebugging := some true }]
  let configs := configs ++
    (if docValid then
      [{ type := some "R-Debugger"
         request := some "launch"
         name := some "Debug R-File"
         debugMode := some "file"
         workingDirectory := some wd
         file := some "${file}"
         allowGlobalDebugging := some true : DebugConfig },
       { type := some "R-Debugger"
         request := some "launch"
         name := some "Debug R-Function"
         debugMode := some "function"
         workingDirectory := some wd
         file := some "${file}"
         mainFunction := some "main"
         allowGlobalDebugging := some false : DebugConfig }]
     else [])
  let configs := configs ++
    (if hasDescription then
      [{ type := some "R-Debugger"
         name := some "Debug R-Package"
         request := some "launch"
         debugMode := some "workspace"
         workingDirectory := some wd
         loadPackages := some ["."]
         includePackageScopes := some true
         allowGlobalDebugging := some true : DebugConfig }]
     else [])
  configs ++
    [{ type := some "R-Debugger"
       request := some "attach"
       name := some "Attach to R process"
       splitOverwrittenOutput := some true }]

/-- Sample resolution result used as the concrete strict configuration in
the witness for claim C3: what `resolveDebugConfiguration` produces for the
bare `{ request := "launch" }` input with no open document, no folder, and
the help viewer available. -/
def launchCapabilitiesSample : StrictDebugConfiguration :=
  .workspaceLaunch
    { request := some "launch", debugMode := some "workspace",
      workingDirectory := some ".", allowGlobalDebugging := some true,
      overwriteHelp := some true, supportsWriteToStdinEvent := some true,
      supportsShowingPromptRequest := some true, supportsStdoutReading := some true }

end RDebugger

namespace RDebugger

/-! ### Helper lemmas -/

/-- JavaScript `||` keeps a non-empty string. -/
theorem strOr_some_ne {s : String} (h : s ≠ "") (d : String) : strOr (some s) d = s := by
  simp [strOr, h]

/-- A present non-empty string is truthy. -/
theorem truthy_some_ne {s : String} (h : s ≠ "") : truthy (some s) = true := by
  simp [truthy, h]

/-- Characterization of resolution on an `attach` request: the bootstrap is
skipped, `debugMode`/`allowGlobalDebugging` are defaulted, the attach socket
fields are injected, and the result is tagged `attach`. -/
theorem resolve_attach_eq (r : DebugConfigurationResolver) (env : EnvironmentSignals)
    (c : DebugConfig) (h : c.request = some "attach") :
    resolveDebugConfiguration r env c = some (.attach { c with
      debugMode := some (strOr c.debugMode (if env.docValid then "file" else "workspace"))
      allowGlobalDebugging := some (c.allowGlobalDebugging.getD true)
      customPort := some (c.customPort.getD r.customPort)
      customHost := some (strOr c.customHost r.customHost)
      useCustomSocket := some (c.useCustomSocket.getD true)
      supportsWriteToStdinEvent := some (c.supportsWriteToStdinEvent.getD true)
      overwriteLoadAll := some false }) := by
  simp [resolveDebugConfiguration, h, truthy]

/-! ### Claim C1 -/

/-- Claim C1, counterexample: a raw configuration whose `request` is the
unrecognized value "bogus" is nevertheless resolved to an ordinary tagged
configuration (a `workspaceLaunch`, with the bogus `request` passed through);
the resolver neither fails fatally nor withholds a tagged result. -/
theorem resolver_unrecognized_request_returns_tagged :
    (("bogus" : String) ≠ "launch" ∧ ("bogus" : String) ≠ "attach") ∧
    resolveDebugConfiguration ⟨12345, "myhost", true⟩ ⟨false, false, false⟩
        { request := some "bogus" } =
      some (.workspaceLaunch
        { request := some "bogus", debugMode := some "workspace",
          workingDirectory := some ".", allowGlobalDebugging := some true }) :=
  ⟨⟨by decide, by decide⟩, by decide⟩

/-- Claim C1, amended: `resolveDebugConfiguration` never signals an error.
For a raw configuration with a non-empty `request` that is neither "launch"
nor "attach", neither injection branch applies and the outcome is decided by
`debugMode` alone: a tagged configuration is returned exactly when the
defaulted `debugMode` is one of "function"/"file"/"workspace"; the fatal
unrecognized-`request` error is raised only later, in
`createDebugAdapterDescriptor`. -/
theorem resolver_unrecognized_request_soft (r : DebugConfigurationResolver)
    (env : EnvironmentSignals) (c : DebugConfig) (s : String)
    (hreq : c.request = some s) (hne : s ≠ "") (hl : s ≠ "launch") (ha : s ≠ "attach") :
    (resolveDebugConfiguration r env c).isSome = true ↔
      strOr c.debugMode (if env.docValid then "file" else "workspace") ∈
        (["function", "file", "workspace"] : List String) := by
  simp [resolveDebugConfiguration, hreq, truthy_some_ne hne, hl, ha]
  split_ifs <;> simp_all

/-- Claim C1, witness for the amended theorem at a concrete input. -/
theorem resolver_unrecognized_request_soft_witness :
    (resolveDebugConfiguration ⟨18721, "localhost", false⟩ ⟨false, false, false⟩
        { request := some "mystery", debugMode := some "function" }).isSome = true ↔
      ("function" : String) ∈ (["function", "file", "workspace"] : List String) :=
  resolver_unrecognized_request_soft ⟨18721, "localhost", false⟩ ⟨false, false, false⟩
    { request := some "mystery", debugMode := some "function" } "mystery"
    rfl (by decide) (by decide) (by decide)

/-! ### Claim C2 -/

/-- Claim C2: every raw configuration with `request = "attach"` (whatever its
`debugMode`) resolves to a non-null `attach`-tagged configuration in which
`customPort` is the caller's value or else the resolver's fallback port,
`customHost` is the fallback host when unset, `useCustomSocket` and
`supportsWriteToStdinEvent` default to `true` (explicit `false` preserved),
and `overwriteLoadAll` is forced to `false`. -/
theorem resolve_attach_fills_fields (r : DebugConfigurationResolver)
    (env : EnvironmentSignals) (c : DebugConfig) (h : c.request = some "attach") :
    ∃ c', resolveDebugConfiguration r env c = some (.attach c') ∧
      c'.customPort = some (c.customPort.getD r.customPort) ∧
      (c.customHost = none → c'.customHost = some r.customHost) ∧
      c'.useCustomSocket = some (c.useCustomSocket.getD true) ∧
      c'.supportsWriteToStdinEvent = some (c.supportsWriteToStdinEvent.getD true) ∧
      c'.overwriteLoadAll = some false := by
  refine ⟨_, resolve_attach_eq r env c h, rfl, ?_, rfl, rfl, rfl⟩
  intro hh
  simp [hh, strOr]

/-- Claim C2, witness at a concrete input. -/
theorem resolve_attach_fills_fields_witness :
    ∃ c', resolveDebugConfiguration ⟨12345, "myhost", true⟩ ⟨false, false, false⟩
        { request := some "attach" } = some (.attach c') ∧
      c'.customPort = some 12345 ∧
      (({ request := some "attach" } : DebugConfig).customHost = none →
        c'.customHost = some "myhost") ∧
      c'.useCustomSocket = some true ∧
      c'.supportsWriteToStdinEvent = some true ∧
      c'.overwriteLoadAll = some false :=
  resolve_attach_fills_fields ⟨12345, "myhost", true⟩ ⟨false, false, false⟩
    { request := some "attach" } rfl

/-! ### Claim C3 -/

/-- Claim C3: whenever a raw configuration with `request = "launch"` resolves
to a strict configuration, that configuration has `supportsStdoutReading`,
`supportsWriteToStdinEvent` and `supportsShowingPromptRequest` equal to `true`
regardless of the caller's values, and `overwriteHelp` equal to the caller's
value (defaulting to `true` when unset) ANDed with help-panel availability -
in particular `false` whenever the resolver has `supportsHelpViewer = false`. -/
theorem resolve_launch_capabilities (r : DebugConfigurationResolver)
    (env : EnvironmentSignals) (c : DebugConfig) (sc : StrictDebugConfiguration)
    (h : c.request = some "launch")
    (hres : resolveDebugConfiguration r env c = some sc) :
    sc.config.supportsStdoutReading = some true ∧
    sc.config.supportsWriteToStdinEvent = some true ∧
    sc.config.supportsShowingPromptRequest = some true ∧
    sc.config.overwriteHelp = some ((c.overwriteHelp.getD true) && r.supportsHelpViewer) := by
  simp [resolveDebugConfiguration, h, truthy] at hres
  split_ifs at hres <;>
    (injection hres with hres; subst hres; exact ⟨rfl, rfl, rfl, rfl⟩)

/-- Claim C3, witness at a concrete input (caller left everything unset,
help viewer available): the bare launch request resolves to
`launchCapabilitiesSample`, whose capability flags are all `true`. -/
theorem resolve_launch_capabilities_witness :
    launchCapabilitiesSample.config.supportsStdoutReading = some true ∧
    launchCapabilitiesSample.config.supportsWriteToStdinEvent = some true ∧
    launchCapabilitiesSample.config.supportsShowingPromptRequest = some true ∧
    launchCapabilitiesSample.config.overwriteHelp = some true :=
  resolve_launch_capabilities ⟨12345, "myhost", true⟩ ⟨false, false, false⟩
    { request := some "launch" } launchCapabilitiesSample rfl rfl

end RDebugger

namespace RDebugger

/-! ### Claim C4 -/

/-- Claim C4: when the raw configuration carries none of `type`, `request`,
`name`, resolution synthesizes a configuration by a three-way branch on the
environment signals: a package-aware workspace launch (tagged
`workspaceLaunch`, with `includePackageScopes = true` and
`loadPackages = ["."]`) if the workspace folder holds a package descriptor;
else a file launch (tagged `fileLaunch`, with `file = "${file}"`) if a
filesystem-backed document is open; else a plain workspace launch (tagged
`workspaceLaunch`). -/
theorem resolve_empty_config_synthesis (r : DebugConfigurationResolver)
    (env : EnvironmentSignals) (c : DebugConfig)
    (ht : c.type = none) (hr : c.request = none) (hn : c.name = none) :
    ((env.hasFolder && env.descriptionExists) = true →
      ∃ c', resolveDebugConfiguration r env c = some (.workspaceLaunch c') ∧
        c'.includePackageScopes = some true ∧ c'.loadPackages = some ["."]) ∧
    ((env.hasFolder && env.descriptionExists) = false → env.docValid = true →
      ∃ c', resolveDebugConfiguration r env c = some (.fileLaunch c') ∧
        c'.file = some "${file}") ∧
    ((env.hasFolder && env.descriptionExists) = false → env.docValid = false →
      ∃ c', resolveDebugConfiguration r env c = some (.workspaceLaunch c')) := by
  obtain ⟨d, f, de⟩ := env
  cases d <;> cases f <;> cases de <;>
    simp [resolveDebugConfiguration, ht, hr, hn, truthy, strOr]

/-- Claim C4, witness at a concrete input: an empty raw configuration in a
workspace with a package descriptor resolves to the package-aware workspace
launch. -/
theorem resolve_empty_config_synthesis_witness :
    ∃ c', resolveDebugConfiguration ⟨12345, "myhost", true⟩ ⟨false, true, true⟩ {} =
        some (.workspaceLaunch c') ∧
      c'.includePackageScopes = some true ∧ c'.loadPackages = some ["."] :=
  (resolve_empty_config_synthesis ⟨12345, "myhost", true⟩ ⟨false, true, true⟩ {}
    rfl rfl rfl).1 rfl

/-! ### Claim C5 -/

/-- Claim C5, counterexample: the empty string is an explicitly set
`debugMode` that is none of "function"/"file"/"workspace", yet resolution of
`request = "launch"` with `debugMode = ""` does not return an empty result:
the falsy mode is replaced by the default and a `workspaceLaunch` comes back. -/
theorem resolve_launch_empty_mode_not_none :
    (("" : String) ≠ "function" ∧ ("" : String) ≠ "file" ∧ ("" : String) ≠ "workspace") ∧
    resolveDebugConfiguration ⟨12345, "myhost", true⟩ ⟨false, false, false⟩
        { request := some "launch", debugMode := some "" } =
      some (.workspaceLaunch
        { request := some "launch", debugMode := some "workspace",
          workingDirectory := some ".", allowGlobalDebugging := some true,
          overwriteHelp := some true, supportsWriteToStdinEvent := some true,
          supportsShowingPromptRequest := some true, supportsStdoutReading := some true }) :=
  ⟨⟨by decide, by decide, by decide⟩, by decide⟩

/-- Claim C5, amended: for every raw configuration with `request = "launch"`
and an explicitly set non-empty `debugMode` that is none of
"function"/"file"/"workspace", resolution returns the empty result (and the
resolver, being a total function into `Option`, never throws). The empty
string is excluded because it is falsy in JavaScript and is replaced by the
mode default before the check. -/
theorem resolve_launch_unrecognized_mode_none (r : DebugConfigurationResolver)
    (env : EnvironmentSignals) (c : DebugConfig) (s : String)
    (hreq : c.request = some "launch") (hdm : c.debugMode = some s)
    (hne : s ≠ "") (h1 : s ≠ "function") (h2 : s ≠ "file") (h3 : s ≠ "workspace") :
    resolveDebugConfiguration r env c = none := by
  simp [resolveDebugConfiguration, hreq, hdm, truthy, strOr_some_ne hne, h1, h2, h3]

/-- Claim C5, witness for the amended theorem: `debugMode = "invalid"` under
`launch` resolves to the empty result. -/
theorem resolve_launch_unrecognized_mode_none_witness :
    resolveDebugConfiguration ⟨12345, "myhost", true⟩ ⟨false, false, false⟩
      { request := some "launch", debugMode := some "invalid" } = none :=
  resolve_launch_unrecognized_mode_none ⟨12345, "myhost", true⟩ ⟨false, false, false⟩
    { request := some "launch", debugMode := some "invalid" } "invalid"
    rfl rfl (by decide) (by decide) (by decide) (by decide)

/-! ### Claim C6 -/

/-- Claim C6, counterexample: a configuration already in strict
`FunctionLaunch` form but with `allowGlobalDebugging` unset is resolved to a
configuration whose `allowGlobalDebugging` is `some true` - a field outside
the claim's list of forced/unconditional exceptions is altered. -/
theorem resolve_function_defaults_allowGlobalDebugging :
    ({ request := some "launch", debugMode := some "function",
       workingDirectory := some "/proj", file := some "/proj/main.R",
       mainFunction := some "main" } : DebugConfig).allowGlobalDebugging = none ∧
    (resolveDebugConfiguration ⟨12345, "myhost", true⟩ ⟨false, false, false⟩
        { request := some "launch", debugMode := some "function",
          workingDirectory := some "/proj", file := some "/proj/main.R",
          mainFunction := some "main" }).map
      (fun sc => sc.config.allowGlobalDebugging) = some (some true) :=
  ⟨rfl, by decide⟩

/-- Claim C6, amended: resolving an already-strict `FunctionLaunch`
configuration (request "launch", mode "function", non-empty
`workingDirectory`/`file`/`mainFunction`) returns a `functionLaunch` in which
no field is altered except the forced/unconditional ones -
`supportsStdoutReading`, `supportsWriteToStdinEvent`,
`supportsShowingPromptRequest` (set `true`), `overwriteHelp` (help-panel
gating) - and the defaulting of `allowGlobalDebugging` to `true` when unset. -/
theorem resolve_strict_function_launch (r : DebugConfigurationResolver)
    (env : EnvironmentSignals) (c : DebugConfig) (w f m : String)
    (hreq : c.request = some "launch") (hdm : c.debugMode = some "function")
    (hw : c.workingDirectory = some w) (hwne : w ≠ "")
    (hf : c.file = some f) (hfne : f ≠ "")
    (hm : c.mainFunction = some m) (hmne : m ≠ "") :
    resolveDebugConfiguration r env c = some (.functionLaunch { c with
      allowGlobalDebugging := some (c.allowGlobalDebugging.getD true)
      supportsStdoutReading := some true
      supportsWriteToStdinEvent := some true
      supportsShowingPromptRequest := some true
      overwriteHelp := some ((c.overwriteHelp.getD true) && r.supportsHelpViewer) }) := by
  simp [resolveDebugConfiguration, hreq, hdm, hw, hf, hm, truthy,
    strOr_some_ne hwne, strOr_some_ne hfne, strOr_some_ne hmne, strOr]
  exact ⟨fun hc => absurd hc hwne, fun hc => absurd hc hfne, fun hc => absurd hc hmne⟩

/-- Claim C6, witness for the amended theorem at a concrete strict input
(`allowGlobalDebugging` explicitly `false`, so it is preserved). -/
theorem resolve_strict_function_launch_witness :
    resolveDebugConfiguration ⟨12345, "myhost", true⟩ ⟨false, false, false⟩
        { request := some "launch", debugMode := some "function",
          workingDirectory := some "/proj", file := some "/proj/main.R",
          mainFunction := some "main", allowGlobalDebugging := some false } =
      some (.functionLaunch
        { request := some "launch", debugMode := some "function",
          workingDirectory := some "/proj", file := some "/proj/main.R",
          mainFunction := some "main", allowGlobalDebugging := some false,
          supportsStdoutReading := some true, supportsWriteToStdinEvent := some true,
          supportsShowingPromptRequest := some true, overwriteHelp := some true }) :=
  resolve_strict_function_launch ⟨12345, "myhost", true⟩ ⟨false, false, false⟩
    { request := some "launch", debugMode := some "function",
      workingDirectory := some "/proj", file := some "/proj/main.R",
      mainFunction := some "main", allowGlobalDebugging := some false }
    "/proj" "/proj/main.R" "main"
    rfl rfl rfl (by decide) rfl (by decide) rfl (by decide)

end RDebugger

namespace RDebugger

/-! ### Claim C7 -/

/-- Claim C7: transport selection fails fatally - `createDebugAdapterDescriptor`
throws (modelled as `Except.error`) rather than returning a handle - for every
session configuration whose `request` is neither "launch" nor "attach". -/
theorem descriptor_unrecognized_request_error (hp : Bool) (c : DebugConfig)
    (h1 : c.request ≠ some "launch") (h2 : c.request ≠ some "attach") :
    createDebugAdapterDescriptor hp c = .error invalidRequestMessage := by
  simp [createDebugAdapterDescriptor, h1, h2]

/-- Claim C7, witness at a concrete input. -/
theorem descriptor_unrecognized_request_error_witness :
    createDebugAdapterDescriptor false { request := some "bogus" } =
      .error invalidRequestMessage :=
  descriptor_unrecognized_request_error false { request := some "bogus" }
    (by decide) (by decide)

/-! ### Claim C8 -/

/-- Claim C8, counterexample: an Attach configuration whose `port` is
explicitly set to `0` and whose `host` is explicitly the empty string does
not get those values in the transport handle; `||` treats the falsy values as
unset and the handle is bound to `18721` / "localhost" instead. -/
theorem descriptor_attach_explicit_port_zero :
    ({ request := some "attach", port := some 0, host := some "" } : DebugConfig).port =
      some 0 ∧
    ({ request := some "attach", port := some 0, host := some "" } : DebugConfig).host =
      some "" ∧
    createDebugAdapterDescriptor false
        { request := some "attach", port := some 0, host := some "" } =
      .ok (.server 18721 "localhost") :=
  ⟨rfl, rfl, rfl⟩

/-- Claim C8, amended: for every Attach configuration,
`createDebugAdapterDescriptor` returns a remote-socket handle whose port is
`18721` whenever `port` is unset or the falsy `0` (a set non-zero `port` is
used), and whose host is "localhost" whenever `host` is unset or the falsy
empty string (a set non-empty `host` is used). -/
theorem descriptor_attach_defaults (hp : Bool) (c : DebugConfig)
    (h : c.request = some "attach") :
    ∃ p h', createDebugAdapterDescriptor hp c = .ok (.server p h') ∧
      ((c.port = none ∨ c.port = some 0) → p = 18721) ∧
      (∀ n, c.port = some n → n ≠ 0 → p = n) ∧
      ((c.host = none ∨ c.host = some "") → h' = "localhost") ∧
      (∀ s, c.host = some s → s ≠ "" → h' = s) := by
  refine ⟨natOr c.port 18721, strOr c.host "localhost", ?_, ?_, ?_, ?_, ?_⟩
  · simp [createDebugAdapterDescriptor, h]
  · rintro (hp0 | hp0) <;> simp [natOr, hp0]
  · intro n hn hne
    simp [natOr, hn, hne]
  · rintro (hh | hh) <;> simp [strOr, hh]
  · intro s hs hne
    simp [strOr, hs, hne]

/-- Claim C8, witness for the amended theorem: with `port`/`host` unset the
handle is bound to `18721` / "localhost". -/
theorem descriptor_attach_defaults_witness :
    ∃ p h', createDebugAdapterDescriptor true { request := some "attach" } =
        .ok (.server p h') ∧
      (((none : Option Nat) = none ∨ (none : Option Nat) = some 0) → p = 18721) ∧
      (∀ n, (none : Option Nat) = some n → n ≠ 0 → p = n) ∧
      (((none : Option String) = none ∨ (none : Option String) = some "") →
        h' = "localhost") ∧
      (∀ s, (none : Option String) = some s → s ≠ "" → h' = s) :=
  descriptor_attach_defaults true { request := some "attach" } rfl

/-! ### Claim C9 -/

/-- Claim C9: with no filesystem-backed document open and no package
descriptor, the dynamic template provider returns exactly two templates, in
order: the workspace-launch template first (working directory
"${workspaceFolder}" when a folder is present, else ".") and the attach
template last. -/
theorem dynamic_templates_no_doc_no_package (env : EnvironmentSignals)
    (hdoc : env.docValid = false)
    (hdesc : (env.hasFolder && env.descriptionExists) = false) :
    dynamicDebugConfigurations env =
      [{ type := some "R-Debugger", request := some "launch",
         name := some "Launch R-Workspace", debugMode := some "workspace",
         workingDirectory := some (if env.hasFolder then "${workspaceFolder}" else "."),
         allowGlobalDebugging := some true },
       { type := some "R-Debugger", request := some "attach",
         name := some "Attach to R process", splitOverwrittenOutput := some true }] := by
  obtain ⟨d, f, de⟩ := env
  simp only at hdoc hdesc
  subst hdoc
  cases f <;> cases de <;> simp_all [dynamicDebugConfigurations]

/-- Claim C9, witness at a concrete input: a workspace folder without a
package descriptor and no open document. -/
theorem dynamic_templates_no_doc_no_package_witness :
    dynamicDebugConfigurations ⟨false, true, false⟩ =
      [{ type := some "R-Debugger", request := some "launch",
         name := some "Launch R-Workspace", debugMode := some "workspace",
         workingDirectory := some "${workspaceFolder}",
         allowGlobalDebugging := some true },
       { type := some "R-Debugger", request := some "attach",
         name := some "Attach to R process", splitOverwrittenOutput := some true }] :=
  dynamic_templates_no_doc_no_package ⟨false, true, false⟩ rfl (by decide)

/-! ### Claim C10 -/

/-- Claim C10: unset-detection is inconsistent in the attach branch of
resolution: an explicitly supplied `customPort` of `0` survives resolution
(nullish coalescing replaces only unset values), while an explicitly supplied
empty-string `customHost` is replaced by the resolver's fallback host (`||`
replaces any falsy value). -/
theorem resolve_attach_falsy_unset_detection (r : DebugConfigurationResolver)
    (env : EnvironmentSignals) (c : DebugConfig)
    (hreq : c.request = some "attach")
    (hport : c.customPort = some 0) (hhost : c.customHost = some "") :
    ∃ c', resolveDebugConfiguration r env c = some (.attach c') ∧
      c'.customPort = some 0 ∧ c'.customHost = some r.customHost := by
  refine ⟨_, resolve_attach_eq r env c hreq, ?_, ?_⟩
  · simp [hport]
  · simp [hhost, strOr]

/-- Claim C10, witness at a concrete input: fallback host "myhost" replaces
the explicit empty-string `customHost`, while the explicit `customPort = 0`
is preserved. -/
theorem resolve_attach_falsy_unset_detection_witness :
    ∃ c', resolveDebugConfiguration ⟨12345, "myhost", false⟩ ⟨false, false, false⟩
        { request := some "attach", customPort := some 0, customHost := some "" } =
        some (.attach c') ∧
      c'.customPort = some 0 ∧ c'.customHost = some "myhost" :=
  resolve_attach_falsy_unset_detection ⟨12345, "myhost", false⟩ ⟨false, false, false⟩
    { request := some "attach", customPort := some 0, customHost := some "" }
    rfl rfl rfl

end RDebugger
